import Mathlib

set_option autoImplicit false

/-!
Verification of the pharmacy/POS inventory core (`core/models.py`,
`core/serializers.py`, `core/views.py`) against its natural-language
specification.

The Django models are embedded shallowly: database tables become finite maps
`Nat → Option row`, `Decimal` arithmetic becomes exact rational arithmetic
(`ℚ`, sufficient at the field precisions in use), `IntegerField` values are
`ℤ`, dates are day ordinals (`ℤ`), and every fallible operation returns
`Except`.  Two constructs of the source have no ordinary denotation and are
embedded as the runtime failures they produce:

* `Batch.objects.filter(is_expired=False, ...)` — `is_expired` is a Python
  `@property`, not a database column, so Django raises `FieldError`
  (modelled by `PharmError.ormFieldError`);
* `batch.is_near_expiry(30)` — `is_near_expiry` is itself a `@property`, so
  the attribute access returns a `bool` and the call raises `TypeError`
  (modelled by `PharmError.pyTypeError`).
-/

/-- Truncation toward zero, the behaviour of Python `int()` on a `Decimal`
(and of Django's `IntegerField.get_prep_value`). -/
def pyInt (q : ℚ) : ℤ :=
  if 0 ≤ q then ⌊q⌋ else -⌊-q⌋

/-- Round a rational to the nearest integer, halves to even: the default
`ROUND_HALF_EVEN` of Python `Decimal.quantize`. -/
def roundHalfEvenZ (q : ℚ) : ℤ :=
  let f : ℤ := ⌊q⌋
  let r : ℚ := q - f
  if r < 1/2 then f
  else if 1/2 < r then f + 1
  else if f % 2 = 0 then f else f + 1

/-- `Decimal.quantize(Decimal('0.01'))`: round to two decimal places,
halves to even. -/
def quantize2 (q : ℚ) : ℚ :=
  (roundHalfEvenZ (q * 100) : ℚ) / 100

example : pyInt (49/5) = 9 := by norm_num [pyInt]
example : pyInt (-(49/5)) = -9 := by norm_num [pyInt]
example : quantize2 (5/1000) = 0 := by norm_num [quantize2, roundHalfEvenZ]
example : quantize2 (995/10000) = 1/10 := by norm_num [quantize2, roundHalfEvenZ]
example : quantize2 (10945/10000) = 109/100 := by norm_num [quantize2, roundHalfEvenZ]

/-! ## Retail data model (`core/models.py`: `Product`, `StockMovement`) -/

/-- `Product.product_type` ∈ {simple, parent, child}. -/
inductive ProductType
  | simple
  | parent
  | child
  deriving DecidableEq, Repr

/-- The fields of `Product` that the stock subsystem reads or writes. -/
structure Product where
  id : ℕ
  product_type : ProductType
  parent_product : Option ℕ
  unit_quantity : ℚ
  price : ℚ
  tax_rate : ℚ
  stock_quantity : ℚ
  min_stock_level : ℤ
  deriving DecidableEq, Repr

/-- The products table, keyed by primary key. -/
def ProductTable := ℕ → Option Product

/-- `Product.objects.get(id=i)` (as an `Option`). -/
def getProduct (ps : ProductTable) (i : ℕ) : Option Product := ps i

/-- `product.save()` persisting the row under its primary key. -/
def putProduct (ps : ProductTable) (p : Product) : ProductTable :=
  fun i => if i = p.id then some p else ps i

/-- A `StockMovement` row.  `quantity`, `previous_quantity` and
`new_quantity` are `IntegerField`s, so `Decimal` values handed to them are
truncated by `int()` on the way in. -/
structure StockMovement where
  productId : ℕ
  movement_type : String
  quantity : ℤ
  previous_quantity : ℤ
  new_quantity : ℤ
  saleId : Option ℕ
  notes : String
  deriving DecidableEq, Repr

/-- `Product.available_child_stock` (`core/models.py:309`): for a child
product, derive available units from the parent's stock; a zero child unit
size yields `0`; for any other product type return the stored stock. -/
def available_child_stock (ps : ProductTable) (p : Product) : ℚ :=
  match p.product_type, p.parent_product with
  | .child, some parentId =>
    match getProduct ps parentId with
    | some parent =>
      let parent_total_units := parent.stock_quantity * parent.unit_quantity
      let child_unit_size := p.unit_quantity
      if 0 < child_unit_size then ((pyInt (parent_total_units / child_unit_size) : ℤ) : ℚ)
      else 0
    | none => p.stock_quantity
  | _, _ => p.stock_quantity

/-- `Product.can_sell` (`core/models.py:383`). -/
def can_sell (ps : ProductTable) (p : Product) (quantity : ℚ) : Bool :=
  match p.product_type, p.parent_product with
  | .child, some _ => decide (quantity ≤ available_child_stock ps p)
  | _, _ => decide (quantity ≤ p.stock_quantity)

/-- `Product.update_parent_stock` (`core/models.py:347`): consume
`quantity_sold × child_unit / parent_unit` parent units, clamped at zero,
persist the parent, and return the (unclamped) consumption.  A set foreign
key always resolves in the source, so the unresolved case is a no-op here
and excluded by hypothesis in the theorems. -/
def update_parent_stock (ps : ProductTable) (p : Product) (quantity_sold : ℤ) :
    ℚ × ProductTable :=
  match p.product_type, p.parent_product with
  | .child, some parentId =>
    match getProduct ps parentId with
    | some parent =>
      let parent_unit_qty := parent.unit_quantity
      let child_unit_qty := p.unit_quantity
      let total_child_qty_sold := (quantity_sold : ℚ) * child_unit_qty
      let parent_units_consumed := total_child_qty_sold / parent_unit_qty
      let previous_stock := parent.stock_quantity
      let new_stock0 := previous_stock - parent_units_consumed
      let new_stock := if new_stock0 < 0 then 0 else new_stock0
      (parent_units_consumed, putProduct ps { parent with stock_quantity := new_stock })
    | none => (0, ps)
  | _, _ => (0, ps)

example :
    (update_parent_stock
      (fun i => if i = 1 then some ⟨1, .parent, none, 50, 100, 0, 10, 1⟩
                else if i = 2 then some ⟨2, .child, some 1, 10, 25, 0, 0, 1⟩ else none)
      ⟨2, .child, some 1, 10, 25, 0, 0, 1⟩ 1).1 = 1/5 := by
  norm_num [update_parent_stock, getProduct]

/-! ## Retail sale orchestration (`core/serializers.py`: `SaleCreateSerializer`,
`StockAdjustmentSerializer`; `core/views.py`: `StockAdjustmentView`,
`cancel_sale_view`) -/

/-- One line of a retail sale request (`SaleItemCreateSerializer`). -/
structure RetailItemReq where
  product_id : ℕ
  quantity : ℤ
  discount_percent : ℚ
  deriving DecidableEq, Repr

/-- The `_calculated` totals stored on the created sale. -/
structure SaleTotals where
  subtotal : ℚ
  tax_amount : ℚ
  discount_amount : ℚ
  total : ℚ
  change_amount : ℚ
  deriving DecidableEq, Repr

/-- The `ValidationError`s `SaleCreateSerializer` can raise. -/
inductive RetailError
  | noItems
  | customerNameRequired
  | productNotFound (id : ℕ)
  | insufficientStock (id : ℕ)
  | amountPaidTooLow
  deriving DecidableEq, Repr

/-- The item loop of `SaleCreateSerializer.validate` (`core/serializers.py:491`):
per item, resolve the product, check availability by product type, and
accumulate the raw (unrounded) subtotal, discount and tax sums. -/
def retailScanItems (ps : ProductTable) : List RetailItemReq → Except RetailError (ℚ × ℚ × ℚ)
  | [] => .ok (0, 0, 0)
  | it :: rest =>
    match getProduct ps it.product_id with
    | none => .error (.productNotFound it.product_id)
    | some product =>
      let available : Bool :=
        match product.product_type with
        | .child => can_sell ps product (it.quantity : ℚ)
        | .parent => decide ((it.quantity : ℚ) ≤ product.stock_quantity)
        | .simple => decide ((it.quantity : ℚ) ≤ product.stock_quantity)
      if available then
        match retailScanItems ps rest with
        | .error e => .error e
        | .ok (s, d, t) =>
          let quantity : ℚ := it.quantity
          let unit_price := product.price
          let discount_percent := it.discount_percent
          let tax_rate := product.tax_rate
          let item_subtotal := unit_price * quantity
          let item_discount := item_subtotal * (discount_percent / 100)
          let item_after_discount := item_subtotal - item_discount
          let item_tax := item_after_discount * (tax_rate / 100)
          .ok (item_subtotal + s, item_discount + d, item_tax + t)
      else .error (.insufficientStock it.product_id)

/-- `SaleCreateSerializer.validate` (`core/serializers.py:474`): the
mobile-payment name check, the item scan, quantization of the total, the
`amount_paid ≥ total` gate, and the `_calculated` dictionary. -/
def retailValidate (ps : ProductTable) (items : List RetailItemReq)
    (payment_method customer_name : String) (amount_paid : ℚ) :
    Except RetailError SaleTotals :=
  if items = [] then .error .noItems
  else if payment_method = "mobile" ∧ customer_name.trim = "" then .error .customerNameRequired
  else
    match retailScanItems ps items with
    | .error e => .error e
    | .ok (subtotal, discount_amount, tax_amount) =>
      let total := quantize2 (subtotal - discount_amount + tax_amount)
      if amount_paid < total then .error .amountPaidTooLow
      else .ok { subtotal := quantize2 subtotal,
                 tax_amount := quantize2 tax_amount,
                 discount_amount := quantize2 discount_amount,
                 total := total,
                 change_amount := quantize2 (amount_paid - total) }

/-- Retail stock-affecting state: the products table plus the append-only
`StockMovement` ledger. -/
structure RetailState where
  products : ProductTable
  movements : List StockMovement

/-- The stock-mutation body of the item loop of `SaleCreateSerializer.create`
(`core/serializers.py:588`–`663`): child products consume parent stock and
log two movements (a real one for the parent, an informational one for the
child); parent and simple products decrement their own stock and log one
movement. -/
def retailSellItemStep (saleId : ℕ) (st : RetailState) (it : RetailItemReq) : RetailState :=
  match getProduct st.products it.product_id with
  | none => st
  | some product =>
    match product.product_type with
    | .child =>
      match product.parent_product with
      | none => st
      | some parentId =>
        match getProduct st.products parentId with
        | none => st
        | some parent0 =>
          let previous_parent_stock := parent0.stock_quantity
          let upd := update_parent_stock st.products product it.quantity
          let parent_units_consumed := upd.1
          let ps1 := upd.2
          let parentAfter := (getProduct ps1 parentId).getD parent0
          let movParent : StockMovement :=
            { productId := parentId, movement_type := "sale",
              quantity := -(pyInt parent_units_consumed),
              previous_quantity := pyInt previous_parent_stock,
              new_quantity := pyInt parentAfter.stock_quantity,
              saleId := some saleId, notes := "" }
          let availAfter := available_child_stock ps1 product
          let movChild : StockMovement :=
            { productId := product.id, movement_type := "sale",
              quantity := -it.quantity,
              previous_quantity := pyInt (availAfter + (it.quantity : ℚ)),
              new_quantity := pyInt availAfter,
              saleId := some saleId, notes := "" }
          { products := ps1, movements := st.movements ++ [movParent, movChild] }
    | .parent =>
      let previous_stock := product.stock_quantity
      let product1 := { product with stock_quantity := product.stock_quantity - (it.quantity : ℚ) }
      let mov : StockMovement :=
        { productId := product.id, movement_type := "sale",
          quantity := -it.quantity,
          previous_quantity := pyInt previous_stock,
          new_quantity := pyInt product1.stock_quantity,
          saleId := some saleId, notes := "" }
      { products := putProduct st.products product1, movements := st.movements ++ [mov] }
    | .simple =>
      let previous_stock := product.stock_quantity
      let product1 := { product with stock_quantity := product.stock_quantity - (it.quantity : ℚ) }
      let mov : StockMovement :=
        { productId := product.id, movement_type := "sale",
          quantity := -it.quantity,
          previous_quantity := pyInt previous_stock,
          new_quantity := pyInt product1.stock_quantity,
          saleId := some saleId, notes := "" }
      { products := putProduct st.products product1, movements := st.movements ++ [mov] }

/-- `StockAdjustmentSerializer.adjustment_type` ∈ {add, remove, set}. -/
inductive AdjustType
  | add
  | remove
  | set
  deriving DecidableEq, Repr

/-- The `ValidationError`s of a manual stock adjustment. -/
inductive AdjustError
  | productNotFound (id : ℕ)
  | removeExceedsStock
  deriving DecidableEq, Repr

/-- `StockAdjustmentSerializer.validate` + `StockAdjustmentView.post`
(`core/serializers.py:709`, `core/views.py:1049`–`1099`): check a `remove`
against available stock, compute the new quantity and the signed movement
quantity, persist the product and append one `adjustment` movement. -/
def stockAdjust (st : RetailState) (product_id : ℕ) (adjustment_type : AdjustType)
    (quantity : ℤ) : Except AdjustError RetailState :=
  match getProduct st.products product_id with
  | none => .error (.productNotFound product_id)
  | some product =>
    if adjustment_type = .remove ∧ product.stock_quantity < (quantity : ℚ) then
      .error .removeExceedsStock
    else
      let previous_quantity := product.stock_quantity
      let new_quantity : ℚ :=
        match adjustment_type with
        | .add => previous_quantity + quantity
        | .remove => previous_quantity - quantity
        | .set => (quantity : ℚ)
      let movement_quantity : ℚ :=
        match adjustment_type with
        | .add => (quantity : ℚ)
        | .remove => -(quantity : ℚ)
        | .set => (quantity : ℚ) - previous_quantity
      let product1 := { product with stock_quantity := new_quantity }
      let mov : StockMovement :=
        { productId := product.id, movement_type := "adjustment",
          quantity := pyInt movement_quantity,
          previous_quantity := pyInt previous_quantity,
          new_quantity := pyInt new_quantity,
          saleId := none, notes := "" }
      .ok { products := putProduct st.products product1, movements := st.movements ++ [mov] }

/-- A persisted retail sale line, as read back by `cancel_sale_view`. -/
structure RetailSaleItemRec where
  productId : ℕ
  quantity : ℤ
  deriving DecidableEq, Repr

/-- A persisted retail `Sale` row (header fields the cancel path touches). -/
structure RetailSaleRec where
  id : ℕ
  status : String
  items : List RetailSaleItemRec
  deriving DecidableEq, Repr

/-- Errors of `cancel_sale_view`. -/
inductive CancelError
  | alreadyCancelled
  deriving DecidableEq, Repr

/-- The restore loop body of `cancel_sale_view` (`core/views.py:968`–`971`):
`product.stock_quantity += item.quantity` on the line's own product. -/
def cancelRestoreStep (ps : ProductTable) (it : RetailSaleItemRec) : ProductTable :=
  match getProduct ps it.productId with
  | none => ps
  | some product =>
    putProduct ps { product with stock_quantity := product.stock_quantity + (it.quantity : ℚ) }

/-- `cancel_sale_view` (`core/views.py:949`–`980`): reject an already
cancelled sale, otherwise add each line's quantity back onto that line's
product row and flip the status.  No ledger movement is written. -/
def cancel_sale_view (st : RetailState) (sale : RetailSaleRec) :
    Except CancelError (RetailState × RetailSaleRec) :=
  if sale.status = "cancelled" then .error .alreadyCancelled
  else
    let ps1 := sale.items.foldl cancelRestoreStep st.products
    .ok ({ st with products := ps1 }, { sale with status := "cancelled" })

/-! ## Pharmacy data model (`core/models.py`: `Medicine`, `Batch`,
`MedicineStockMovement`, `ControlledDrugRegister`) -/

/-- `Medicine.schedule` ∈ {otc, prescription, controlled}. -/
inductive Schedule
  | otc
  | prescription
  | controlled
  deriving DecidableEq, Repr

/-- The fields of `Medicine` the sale path reads. -/
structure Medicine where
  id : ℕ
  schedule : Schedule
  deriving DecidableEq, Repr

/-- `Medicine.requires_prescription` (`core/models.py:499`). -/
def requires_prescription (m : Medicine) : Bool :=
  m.schedule = .prescription ∨ m.schedule = .controlled

/-- `Medicine.is_controlled_drug` (`core/models.py:504`). -/
def is_controlled_drug (m : Medicine) : Bool :=
  m.schedule = .controlled

/-- The fields of `Batch` the stock subsystem reads or writes.  Dates are
day ordinals. -/
structure Batch where
  id : ℕ
  medicineId : ℕ
  batch_number : String
  expiry_date : ℤ
  quantity : ℤ
  selling_price : ℚ
  is_blocked : Bool
  block_reason : String
  deriving DecidableEq, Repr

/-- `Batch.is_expired` (`core/models.py:573`): today ≥ expiry date (a batch
counts as expired on its expiry date). -/
def is_expired (today : ℤ) (b : Batch) : Bool :=
  b.expiry_date ≤ today

/-- `Batch.days_to_expiry` (`core/models.py:578`). -/
def days_to_expiry (today : ℤ) (b : Batch) : ℤ :=
  b.expiry_date - today

/-- `Batch.is_near_expiry` (`core/models.py:584`): `0 < days_to_expiry ≤ days`.
In the source this is a `@property` whose `days` argument can never actually
be supplied — see `PharmError.pyTypeError`. -/
def is_near_expiry (today : ℤ) (b : Batch) (days : ℤ := 90) : Bool :=
  0 < days_to_expiry today b ∧ days_to_expiry today b ≤ days

/-- `Batch.can_dispense` (`core/models.py:589`). -/
def can_dispense (today : ℤ) (b : Batch) : Bool :=
  ¬ is_expired today b ∧ ¬ b.is_blocked ∧ 0 < b.quantity

/-- `Batch.save` (`core/models.py:611`): auto-block an expired batch with a
system-generated reason before persisting. -/
def batchSave (today : ℤ) (b : Batch) : Batch :=
  if is_expired today b ∧ ¬ b.is_blocked then
    { b with is_blocked := true, block_reason := "Automatically blocked - expired" }
  else b

/-- A `MedicineStockMovement` row (`core/models.py:732`). -/
structure MedicineStockMovement where
  medicineId : ℕ
  batchId : ℕ
  movement_type : String
  quantity : ℤ
  previous_quantity : ℤ
  new_quantity : ℤ
  reference_number : String
  saleId : Option ℕ
  reason : String
  deriving DecidableEq, Repr

/-- A `ControlledDrugRegister` row (`core/models.py:905`). -/
structure RegisterEntry where
  medicineId : ℕ
  batchId : ℕ
  transaction_type : String
  quantity : ℤ
  balance : ℤ
  saleId : Option ℕ
  notes : String
  deriving DecidableEq, Repr

/-- The pharmacy stock-affecting state: medicines and batches tables plus
the two append-only ledgers. -/
structure PharmState where
  medicines : ℕ → Option Medicine
  batches : ℕ → Option Batch
  movements : List MedicineStockMovement
  register : List RegisterEntry

/-- `batch.save()` persisting the row under its primary key. -/
def putBatch (bs : ℕ → Option Batch) (b : Batch) : ℕ → Option Batch :=
  fun i => if i = b.id then some b else bs i

/-! ## Pharmacy sale orchestration (`core/serializers.py`:
`PharmacySaleCreateSerializer`; `core/views.py`: `void_pharmacy_sale`,
`writeoff_expired_batch`, `unblock_batch`) -/

/-- Outcomes of `PharmacySaleCreateSerializer.validate`.  The first five are
`serializers.ValidationError`s raised deliberately; the last two model
uncaught Python exceptions the code runs into (see the module header). -/
inductive PharmError
  | noItems
  | medicineNotFound (id : ℕ)
  | prescriptionRequired
  | batchNotFound (medicineId : ℕ)
  | insufficientStock (batchId : ℕ)
  | amountPaidTooLow
  | ormFieldError
  | pyTypeError
  deriving DecidableEq, Repr

/-- Which outcomes are deliberate domain rejections
(`raise serializers.ValidationError` in the source), as opposed to crashes. -/
def isDomainRejection : PharmError → Bool
  | .noItems => true
  | .medicineNotFound _ => true
  | .prescriptionRequired => true
  | .batchNotFound _ => true
  | .insufficientStock _ => true
  | .amountPaidTooLow => true
  | .ormFieldError => false
  | .pyTypeError => false

/-- The database columns of the `batches` table (`core/models.py:519`–`567`;
`id` is Django's implicit primary key).  `is_expired`, `days_to_expiry`,
`is_near_expiry`, `can_dispense` and `status` are properties, not columns. -/
def batchColumnNames : List String :=
  ["id", "medicine", "batch_number", "supplier", "manufacture_date", "expiry_date",
   "received_date", "quantity", "initial_quantity", "purchase_price", "selling_price",
   "is_blocked", "block_reason", "received_by", "created_at", "updated_at"]

/-- The keyword arguments of the FEFO auto-selection queryset
(`core/serializers.py:1315`–`1320`). -/
def fefoFilterKeywords : List String :=
  ["medicine", "is_expired", "is_blocked", "quantity__gte"]

/-- The characters of a filter keyword up to the first `__` lookup
separator. -/
def takeUntilLookupSep : List Char → List Char
  | [] => []
  | '_' :: '_' :: _ => []
  | c :: rest => c :: takeUntilLookupSep rest

/-- The column part of a Django filter keyword (everything before `__`). -/
def djangoKeywordColumn (k : String) : String :=
  String.mk (takeUntilLookupSep k.toList)

/-- Django resolves a filter keyword by looking its column part up among the
model's columns; an unresolvable keyword raises `FieldError`. -/
def djangoKeywordResolves (cols : List String) (k : String) : Bool :=
  cols.contains (djangoKeywordColumn k)

/-- One line of a pharmacy sale request (`PharmacySaleItemCreateSerializer`). -/
structure PharmItemReq where
  medicine_id : ℕ
  batch_id : Option ℕ
  quantity : ℤ
  discount_percent : ℚ
  prescription_verified : Bool
  deriving DecidableEq, Repr

/-- A validated line: the resolved medicine and batch (`item_data['_batch']`,
`item_data['_unit_price']`) together with the request fields. -/
structure ValidatedItem where
  medicine : Medicine
  batch : Batch
  quantity : ℤ
  unit_price : ℚ
  discount_percent : ℚ
  prescription_verified : Bool
  deriving DecidableEq, Repr

/-- Batch resolution inside `PharmacySaleCreateSerializer.validate`
(`core/serializers.py:1307`–`1327`).  An explicit batch id is looked up under
the requested medicine; with no batch id the source builds
`Batch.objects.filter(medicine=…, is_expired=False, is_blocked=False,
quantity__gte=…)`, and since `is_expired` is a model property rather than a
column, Django raises `FieldError` before considering any batch. -/
def pharmacyResolveBatch (st : PharmState) (it : PharmItemReq) : Except PharmError Batch :=
  match it.batch_id with
  | some bid =>
    match st.batches bid with
    | some b =>
      if b.medicineId = it.medicine_id then .ok b else .error (.batchNotFound it.medicine_id)
    | none => .error (.batchNotFound it.medicine_id)
  | none => .error .ormFieldError

/-- One iteration of the item loop of `PharmacySaleCreateSerializer.validate`
(`core/serializers.py:1294`–`1338`): resolve the medicine, apply the
prescription gate, resolve the batch, check its quantity, then evaluate the
near-expiry warning.  The warning line calls `batch.is_near_expiry(30)`,
i.e. it calls the `bool` value of a property, so every item that reaches it
raises `TypeError`; the subtotal/discount accumulation below it
(`core/serializers.py:1340`–`1353`) is modelled by `pharmacyComputeTotals`. -/
def pharmacyValidateItem (st : PharmState) (has_prescription : Bool) (it : PharmItemReq) :
    Except PharmError ValidatedItem :=
  match st.medicines it.medicine_id with
  | none => .error (.medicineNotFound it.medicine_id)
  | some medicine =>
    if requires_prescription medicine ∧ ¬ it.prescription_verified ∧ ¬ has_prescription then
      .error .prescriptionRequired
    else
      match pharmacyResolveBatch st it with
      | .error e => .error e
      | .ok batch =>
        if batch.quantity < it.quantity then .error (.insufficientStock batch.id)
        else .error .pyTypeError

/-- The item loop of `PharmacySaleCreateSerializer.validate`, in request
order: the first failing item aborts the whole validation. -/
def pharmacyValidateItems (st : PharmState) (has_prescription : Bool) :
    List PharmItemReq → Except PharmError (List ValidatedItem)
  | [] => .ok []
  | it :: rest =>
    match pharmacyValidateItem st has_prescription it with
    | .error e => .error e
    | .ok v =>
      match pharmacyValidateItems st has_prescription rest with
      | .error e => .error e
      | .ok vs => .ok (v :: vs)

/-- The raw subtotal and discount sums of the validated lines
(`core/serializers.py:1341`–`1349`): `unit_price × quantity` and its
percentage discount, accumulated without rounding. -/
def pharmacyRawTotals : List ValidatedItem → ℚ × ℚ
  | [] => (0, 0)
  | v :: rest =>
    let (s, d) := pharmacyRawTotals rest
    let item_subtotal := v.unit_price * (v.quantity : ℚ)
    let item_discount := item_subtotal * (v.discount_percent / 100)
    (item_subtotal + s, item_discount + d)

/-- The tail of `PharmacySaleCreateSerializer.validate`
(`core/serializers.py:1355`–`1371`): `total = subtotal - discount` quantized,
the `amount_paid ≥ total` gate, and the `_calculated` dictionary (pharmacy
sales carry no item tax, so `tax_amount` is zero). -/
def pharmacyComputeTotals (vs : List ValidatedItem) (amount_paid : ℚ) :
    Except PharmError SaleTotals :=
  let raw := pharmacyRawTotals vs
  let subtotal := raw.1
  let discount_amount := raw.2
  let total := quantize2 (subtotal - discount_amount)
  if amount_paid < total then .error .amountPaidTooLow
  else .ok { subtotal := quantize2 subtotal,
             discount_amount := quantize2 discount_amount,
             tax_amount := 0,
             total := total,
             change_amount := quantize2 (amount_paid - total) }

/-- `PharmacySaleCreateSerializer.validate_items` + `validate`
(`core/serializers.py:1283`–`1373`). -/
def pharmacyValidate (st : PharmState) (has_prescription : Bool)
    (items : List PharmItemReq) (amount_paid : ℚ) :
    Except PharmError (List ValidatedItem × SaleTotals) :=
  if items = [] then .error .noItems
  else
    match pharmacyValidateItems st has_prescription items with
    | .error e => .error e
    | .ok vs =>
      match pharmacyComputeTotals vs amount_paid with
      | .error e => .error e
      | .ok totals => .ok (vs, totals)

/-- A persisted pharmacy sale line (`PharmacySaleItem`), as read back by
`void_pharmacy_sale`. -/
structure PharmacySaleItemRec where
  medicineId : ℕ
  batchId : ℕ
  quantity : ℤ
  deriving DecidableEq, Repr

/-- A persisted `PharmacySale` header (the fields the void path touches). -/
structure PharmacySaleRec where
  id : ℕ
  invoice_number : String
  status : String
  void_reason : String
  items : List PharmacySaleItemRec
  deriving DecidableEq, Repr

/-- One iteration of the item loop of `PharmacySaleCreateSerializer.create`
(`core/serializers.py:1402`–`1453`): decrement the validated batch, persist
it, append one `sale` movement, and for a controlled medicine append one
`dispensing` register entry carrying the running balance. -/
def pharmacySellItemStep (today : ℤ) (sale : PharmacySaleRec)
    (st : PharmState) (v : ValidatedItem) : PharmState :=
  let batch := v.batch
  let medicine := v.medicine
  let previous_quantity := batch.quantity
  let batch1 := batchSave today { batch with quantity := batch.quantity - v.quantity }
  let mov : MedicineStockMovement :=
    { medicineId := medicine.id, batchId := batch.id, movement_type := "sale",
      quantity := -v.quantity,
      previous_quantity := previous_quantity,
      new_quantity := batch1.quantity,
      reference_number := sale.invoice_number, saleId := some sale.id, reason := "" }
  let st1 := { st with batches := putBatch st.batches batch1,
                       movements := st.movements ++ [mov] }
  if is_controlled_drug medicine then
    { st1 with register := st1.register ++
        [{ medicineId := medicine.id, batchId := batch.id,
           transaction_type := "dispensing", quantity := v.quantity,
           balance := batch1.quantity, saleId := some sale.id, notes := "" }] }
  else st1

/-- The whole pharmacy sale endpoint (`PharmacySaleCreateView.create`):
`validate`, then inside one transaction the sale header and the item loop.
A validation failure returns the state untouched. -/
def processPharmacySale (st : PharmState) (today : ℤ) (saleId : ℕ) (invoice : String)
    (has_prescription : Bool) (items : List PharmItemReq) (amount_paid : ℚ) :
    PharmState × Except PharmError PharmacySaleRec :=
  match pharmacyValidate st has_prescription items amount_paid with
  | .error e => (st, .error e)
  | .ok (vs, _totals) =>
    let sale : PharmacySaleRec :=
      { id := saleId, invoice_number := invoice, status := "completed", void_reason := "",
        items := vs.map (fun v => { medicineId := v.medicine.id, batchId := v.batch.id,
                                    quantity := v.quantity }) }
    (vs.foldl (pharmacySellItemStep today sale) st, .ok sale)

/-- Errors of the batch/void views (`core/views.py`). -/
inductive PharmViewError
  | notFound
  | alreadyVoided
  | voidReasonRequired
  | batchNotExpired
  | batchZeroQuantity
  | cannotUnblockExpired
  deriving DecidableEq, Repr

/-- One iteration of the restore loop of `void_pharmacy_sale`
(`core/views.py:2589`–`2620`): add the line's quantity back onto its batch,
append one `return` movement referencing the sale and the void reason, and
for a controlled medicine append one reversing `adjustment` register entry. -/
def voidSaleItemStep (today : ℤ) (reason : String) (sale : PharmacySaleRec)
    (st : PharmState) (it : PharmacySaleItemRec) : PharmState :=
  match st.batches it.batchId with
  | none => st
  | some batch =>
    let previous_quantity := batch.quantity
    let batch1 := batchSave today { batch with quantity := batch.quantity + it.quantity }
    let mov : MedicineStockMovement :=
      { medicineId := it.medicineId, batchId := batch.id, movement_type := "return",
        quantity := it.quantity,
        previous_quantity := previous_quantity,
        new_quantity := batch1.quantity,
        reference_number := "VOID-" ++ sale.invoice_number,
        saleId := some sale.id,
        reason := "Sale voided: " ++ reason }
    let st1 := { st with batches := putBatch st.batches batch1,
                         movements := st.movements ++ [mov] }
    match st.medicines it.medicineId with
    | some medicine =>
      if is_controlled_drug medicine then
        { st1 with register := st1.register ++
            [{ medicineId := it.medicineId, batchId := batch.id,
               transaction_type := "adjustment", quantity := it.quantity,
               balance := batch1.quantity, saleId := some sale.id,
               notes := "Sale voided: " ++ reason }] }
      else st1
    | none => st1

/-- `void_pharmacy_sale` (`core/views.py:2565`–`2632`): reject a second void
and an empty reason, otherwise restore every line to its batch and flip the
sale to `voided` recording the reason. -/
def void_pharmacy_sale (st : PharmState) (today : ℤ) (sale : PharmacySaleRec)
    (reason : String) : Except PharmViewError (PharmState × PharmacySaleRec) :=
  if sale.status = "voided" then .error .alreadyVoided
  else if reason = "" then .error .voidReasonRequired
  else
    let st1 := sale.items.foldl (voidSaleItemStep today reason sale) st
    .ok (st1, { sale with status := "voided", void_reason := reason })

/-- `writeoff_expired_batch` (`core/views.py:2402`–`2447`): only an expired
batch with stock can be written off; one `expiry_writeoff` movement takes
the batch to zero. -/
def writeoff_expired_batch (st : PharmState) (today : ℤ) (batchId : ℕ) (reason : String) :
    Except PharmViewError (PharmState × Batch) :=
  match st.batches batchId with
  | none => .error .notFound
  | some batch =>
    if ¬ is_expired today batch then .error .batchNotExpired
    else if batch.quantity = 0 then .error .batchZeroQuantity
    else
      let previous_quantity := batch.quantity
      let mov : MedicineStockMovement :=
        { medicineId := batch.medicineId, batchId := batch.id,
          movement_type := "expiry_writeoff",
          quantity := -previous_quantity,
          previous_quantity := previous_quantity,
          new_quantity := 0,
          reference_number := "", saleId := none, reason := reason }
      let batch1 := batchSave today { batch with quantity := 0 }
      .ok ({ st with batches := putBatch st.batches batch1,
                     movements := st.movements ++ [mov] }, batch1)

/-- `unblock_batch` (`core/views.py:2332`–`2352`): an expired batch cannot be
unblocked; otherwise clear the block flag and reason and save. -/
def unblock_batch (st : PharmState) (today : ℤ) (batchId : ℕ) :
    Except PharmViewError (PharmState × Batch) :=
  match st.batches batchId with
  | none => .error .notFound
  | some batch =>
    if is_expired today batch then .error .cannotUnblockExpired
    else
      let batch1 := batchSave today { batch with is_blocked := false, block_reason := "" }
      .ok ({ st with batches := putBatch st.batches batch1 }, batch1)

/-! ## Table and rounding lemmas -/

lemma getProduct_putProduct_self (ps : ProductTable) (p : Product) :
    getProduct (putProduct ps p) p.id = some p := by
  simp [getProduct, putProduct]

lemma getProduct_putProduct_ne (ps : ProductTable) (p : Product) (i : ℕ) (h : i ≠ p.id) :
    getProduct (putProduct ps p) i = getProduct ps i := by
  simp [getProduct, putProduct, h]

lemma putBatch_self (bs : ℕ → Option Batch) (b : Batch) :
    putBatch bs b b.id = some b := by
  simp [putBatch]

lemma putBatch_ne (bs : ℕ → Option Batch) (b : Batch) (i : ℕ) (h : i ≠ b.id) :
    putBatch bs b i = bs i := by
  simp [putBatch, h]

lemma pyInt_intCast (n : ℤ) : pyInt (n : ℚ) = n := by
  unfold pyInt
  rcases le_or_lt 0 n with h | h
  · rw [if_pos (by exact_mod_cast h)]
    exact Int.floor_intCast n
  · rw [if_neg (by exact_mod_cast not_le.mpr h)]
    rw [← Int.cast_neg, Int.floor_intCast, neg_neg]

lemma pyInt_nonneg_eq_floor (q : ℚ) (h : 0 ≤ q) : pyInt q = ⌊q⌋ := by
  simp [pyInt, h]

lemma roundHalfEvenZ_intCast (n : ℤ) : roundHalfEvenZ (n : ℚ) = n := by
  unfold roundHalfEvenZ
  simp [Int.floor_intCast]

lemma quantize2_div100 (n : ℤ) : quantize2 ((n : ℚ) / 100) = (n : ℚ) / 100 := by
  unfold quantize2
  rw [div_mul_cancel₀ _ (by norm_num : (100 : ℚ) ≠ 0), roundHalfEvenZ_intCast]

/-- `batchSave` never changes the quantity or the primary key. -/
lemma batchSave_quantity (today : ℤ) (b : Batch) :
    (batchSave today b).quantity = b.quantity := by
  unfold batchSave; split <;> rfl

lemma batchSave_id (today : ℤ) (b : Batch) : (batchSave today b).id = b.id := by
  unfold batchSave; split <;> rfl

/-! ## Concrete fixtures (the spec's own scenarios: `Rice 50kg`/`Rice 1kg`,
a simple taxed product, and an `Amoxicillin`-style medicine with batches) -/

def rice50 : Product :=
  { id := 1, product_type := .parent, parent_product := none, unit_quantity := 50,
    price := 100, tax_rate := 0, stock_quantity := 10, min_stock_level := 1 }

def rice1 : Product :=
  { id := 2, product_type := .child, parent_product := some 1, unit_quantity := 1,
    price := 5, tax_rate := 0, stock_quantity := 0, min_stock_level := 1 }

def rice10 : Product :=
  { id := 3, product_type := .child, parent_product := some 1, unit_quantity := 10,
    price := 25, tax_rate := 0, stock_quantity := 0, min_stock_level := 1 }

def riceZeroUnit : Product :=
  { id := 4, product_type := .child, parent_product := some 1, unit_quantity := 0,
    price := 5, tax_rate := 0, stock_quantity := 0, min_stock_level := 1 }

def sodaSimple : Product :=
  { id := 5, product_type := .simple, parent_product := none, unit_quantity := 1,
    price := 1, tax_rate := 10, stock_quantity := 100, min_stock_level := 1 }

def psRice : ProductTable := fun i =>
  if i = 1 then some rice50 else if i = 2 then some rice1 else if i = 3 then some rice10
  else if i = 4 then some riceZeroUnit else if i = 5 then some sodaSimple else none

def amoxicillin : Medicine := { id := 1, schedule := .otc }

def diazepam : Medicine := { id := 2, schedule := .controlled }

/-- Expires on day 40, five units. -/
def batchA : Batch :=
  { id := 10, medicineId := 1, batch_number := "A", expiry_date := 40, quantity := 5,
    selling_price := 3, is_blocked := false, block_reason := "" }

/-- Expires on day 230, fifty units. -/
def batchB : Batch :=
  { id := 11, medicineId := 1, batch_number := "B", expiry_date := 230, quantity := 50,
    selling_price := 3, is_blocked := false, block_reason := "" }

/-- Expired (day −5) and manually blocked, ten units. -/
def batchOld : Batch :=
  { id := 12, medicineId := 1, batch_number := "OLD", expiry_date := -5, quantity := 10,
    selling_price := 3, is_blocked := true, block_reason := "damaged" }

def stPharm : PharmState :=
  { medicines := fun i => if i = 1 then some amoxicillin else if i = 2 then some diazepam else none,
    batches := fun i =>
      if i = 10 then some batchA else if i = 11 then some batchB
      else if i = 12 then some batchOld else none,
    movements := [], register := [] }

def todayFx : ℤ := 30

/-- Expired on day 20 (relative to `todayFx` = 30) and not yet blocked. -/
def batchC : Batch :=
  { id := 13, medicineId := 1, batch_number := "C", expiry_date := 20, quantity := 4,
    selling_price := 3, is_blocked := false, block_reason := "" }

/-- A pharmacy sale line with no explicit batch id: the FEFO auto-selection
input. -/
def fefoFailingItem : PharmItemReq :=
  { medicine_id := 1, batch_id := none, quantity := 3, discount_percent := 0,
    prescription_verified := false }

/-! ## Claims -/

/-- **C5, counterexample.**  The claim says a zero child unit size raises an
error rather than returning zero; `Product.available_child_stock`
(`core/models.py:319`–`321`) instead takes the `else` branch and silently
returns `0` for a child whose `unit_quantity` is zero. -/
theorem c5_zero_unit_counterexample :
    riceZeroUnit.unit_quantity = 0 ∧ available_child_stock psRice riceZeroUnit = 0 := by
  constructor
  · rfl
  · norm_num [available_child_stock, getProduct, psRice, riceZeroUnit, rice50]

/-- **C5, amended.**  For a child product with a positive unit size and a
resolvable parent with non-negative stock and unit size,
`available_child_stock` is exactly `⌊parent_stock × parent_unit / child_unit⌋`
and never negative; a zero child unit size returns `0` (no error). -/
theorem c5_available_child_stock_amended (ps : ProductTable) (p parent : Product)
    (parentId : ℕ) (hty : p.product_type = .child) (hpp : p.parent_product = some parentId)
    (hpar : getProduct ps parentId = some parent)
    (hcu : 0 < p.unit_quantity) (hps : 0 ≤ parent.stock_quantity)
    (hpu : 0 ≤ parent.unit_quantity) :
    available_child_stock ps p
      = ((⌊parent.stock_quantity * parent.unit_quantity / p.unit_quantity⌋ : ℤ) : ℚ)
    ∧ 0 ≤ available_child_stock ps p := by
  have hnn : 0 ≤ parent.stock_quantity * parent.unit_quantity / p.unit_quantity :=
    div_nonneg (mul_nonneg hps hpu) hcu.le
  have hval : available_child_stock ps p
      = ((⌊parent.stock_quantity * parent.unit_quantity / p.unit_quantity⌋ : ℤ) : ℚ) := by
    simp only [available_child_stock, hty, hpp, hpar]
    rw [if_pos hcu, pyInt_nonneg_eq_floor _ hnn]
  refine ⟨hval, ?_⟩
  rw [hval]
  exact_mod_cast Int.floor_nonneg.mpr hnn

/-- Witness for C5 (amended): the spec's own `Rice 50kg`/`Rice 1kg` scenario,
`⌊10 × 50 / 1⌋ = 500` available child units. -/
theorem c5_available_child_stock_witness :
    available_child_stock psRice rice1
      = ((⌊rice50.stock_quantity * rice50.unit_quantity / rice1.unit_quantity⌋ : ℤ) : ℚ)
    ∧ 0 ≤ available_child_stock psRice rice1 :=
  c5_available_child_stock_amended psRice rice1 rice50 1 rfl rfl
    (by norm_num [getProduct, psRice]) (by norm_num [rice1]) (by norm_num [rice50])
    (by norm_num [rice50])

/-- **C9.**  `Batch.save` (`core/models.py:611`–`616`) turns every expired
batch blocked — with the system reason when the caller had it unblocked —
and `unblock_batch` (`core/views.py:2332`–`2352`) rejects unblocking an
expired batch; hence a persisted expired batch is always blocked. -/
theorem c9_expired_batch_autoblock (today : ℤ) (b : Batch) (st : PharmState) (bid : ℕ) :
    (is_expired today b = true →
      (batchSave today b).is_blocked = true
      ∧ (b.is_blocked = false →
          (batchSave today b).block_reason = "Automatically blocked - expired"))
    ∧ (st.batches bid = some b → is_expired today b = true →
        unblock_batch st today bid = .error .cannotUnblockExpired) := by
  constructor
  · intro hexp
    constructor
    · rcases hb : b.is_blocked with _ | _
      · simp [batchSave, hexp, hb]
      · simp [batchSave, hb]
    · intro hnb
      simp [batchSave, hexp, hnb]
  · intro hfind hexp
    simp [unblock_batch, hfind, hexp]

/-- Witness for C9: on day 30 a batch that expired on day 20 is auto-blocked
with the system reason by `save`, and the expired-and-blocked `batchOld`
cannot be unblocked. -/
theorem c9_expired_batch_autoblock_witness :
    (batchSave todayFx batchC).is_blocked = true
    ∧ (batchSave todayFx batchC).block_reason = "Automatically blocked - expired"
    ∧ unblock_batch stPharm todayFx 12 = .error .cannotUnblockExpired :=
  ⟨((c9_expired_batch_autoblock todayFx batchC stPharm 12).1 (by decide)).1,
   ((c9_expired_batch_autoblock todayFx batchC stPharm 12).1 (by decide)).2 rfl,
   (c9_expired_batch_autoblock todayFx batchOld stPharm 12).2
     (by norm_num [stPharm]) (by decide)⟩

/-- **C3 (code bug).**  FEFO auto-selection
(`core/serializers.py:1315`–`1320`) filters on `is_expired`, which is a
`@property` of `Batch` (`core/models.py:573`) and not a database column, so
Django raises `FieldError` on every auto-selection request: no batch is ever
considered, filtered or ordered. -/
theorem c3_fefo_fieldError :
    pharmacyValidateItem stPharm false fefoFailingItem = .error .ormFieldError
    ∧ djangoKeywordResolves batchColumnNames "is_expired" = false
    ∧ fefoFilterKeywords.all (djangoKeywordResolves batchColumnNames) = false := by
  refine ⟨?_, by decide, by decide⟩
  norm_num [pharmacyValidateItem, stPharm, amoxicillin, requires_prescription,
    pharmacyResolveBatch, fefoFailingItem]
  intro h
  exact absurd h (by decide)

/-- An explicit-batch line against the expired-and-blocked `batchOld`. -/
def explicitOldItem : PharmItemReq :=
  { medicine_id := 1, batch_id := some 12, quantity := 1, discount_percent := 0,
    prescription_verified := false }

/-- An explicit-batch line against the healthy `batchA`, within stock. -/
def explicitOkItem : PharmItemReq :=
  { medicine_id := 1, batch_id := some 10, quantity := 2, discount_percent := 0,
    prescription_verified := false }

/-- An explicit-batch line against `batchA` exceeding its stock. -/
def explicitTooManyItem : PharmItemReq :=
  { medicine_id := 1, batch_id := some 10, quantity := 99, discount_percent := 0,
    prescription_verified := false }

/-- **C4, counterexample.**  An explicitly supplied batch that is both
expired and blocked, with sufficient quantity, is not rejected by any
eligibility check: `PharmacySaleCreateSerializer.validate`
(`core/serializers.py:1307`–`1337`) checks only existence and quantity, and
the line then dies in the near-expiry warning's `TypeError` — not in a
domain rejection. -/
theorem c4_explicit_batch_counterexample :
    is_expired todayFx batchOld = true
    ∧ batchOld.is_blocked = true
    ∧ explicitOldItem.quantity ≤ batchOld.quantity
    ∧ pharmacyValidateItem stPharm false explicitOldItem = .error .pyTypeError
    ∧ isDomainRejection .pyTypeError = false := by
  refine ⟨by decide, rfl, by decide, ?_, rfl⟩
  norm_num [pharmacyValidateItem, stPharm, amoxicillin, requires_prescription,
    pharmacyResolveBatch, explicitOldItem, batchOld]
  intro h
  exact absurd h (by decide)

/-- **C4, amended.**  An explicit batch id bypasses FEFO and is checked only
for existence under the requested medicine and for quantity: a shortfall
yields the insufficient-stock domain error, and — independently of the
batch's expiry or blocked state — a line whose quantity check passes raises
the near-expiry warning's `TypeError`; no expiry or blocked check is
applied. -/
theorem c4_explicit_batch_amended (st : PharmState) (hrx : Bool) (it : PharmItemReq)
    (med : Medicine) (bid : ℕ) (b : Batch)
    (hmed : st.medicines it.medicine_id = some med)
    (hgate : ¬(requires_prescription med = true ∧ it.prescription_verified = false
               ∧ hrx = false))
    (hbid : it.batch_id = some bid)
    (hb : st.batches bid = some b)
    (hmatch : b.medicineId = it.medicine_id) :
    (b.quantity < it.quantity →
      pharmacyValidateItem st hrx it = .error (.insufficientStock b.id))
    ∧ (it.quantity ≤ b.quantity →
      pharmacyValidateItem st hrx it = .error .pyTypeError) := by
  have hval : pharmacyValidateItem st hrx it
      = if b.quantity < it.quantity then .error (.insufficientStock b.id)
        else .error .pyTypeError := by
    simp only [pharmacyValidateItem, hmed]
    rw [if_neg (by simpa [Bool.not_eq_true] using hgate)]
    simp only [pharmacyResolveBatch, hbid, hb, hmatch, if_pos]
  constructor
  · intro hlt
    rw [hval, if_pos hlt]
  · intro hle
    rw [hval, if_neg (not_lt.mpr hle)]

/-- Witness for C4 (amended): against `batchA` (5 units), requesting 2 ends
in the warning `TypeError` and requesting 99 in the insufficient-stock
rejection. -/
theorem c4_explicit_batch_witness :
    pharmacyValidateItem stPharm false explicitOkItem = .error .pyTypeError
    ∧ pharmacyValidateItem stPharm false explicitTooManyItem
        = .error (.insufficientStock 10) :=
  ⟨(c4_explicit_batch_amended stPharm false explicitOkItem amoxicillin 10 batchA
      rfl (by decide) rfl rfl rfl).2 (by decide),
   (c4_explicit_batch_amended stPharm false explicitTooManyItem amoxicillin 10 batchA
      rfl (by decide) rfl rfl rfl).1 (by decide)⟩

/-- `if a < 0 then 0 else a` is `max a 0`. -/
lemma ite_neg_clamp (a : ℚ) : (if a < 0 then 0 else a) = max a 0 := by
  rcases lt_or_le a 0 with h | h
  · rw [if_pos h, max_eq_right h.le]
  · rw [if_neg (not_lt.mpr h), max_eq_left h]

/-- A retail state over the rice fixtures with an empty ledger. -/
def stRice : RetailState := { products := psRice, movements := [] }

/-- **C7.**  Selling `N` units of a child product through
`SaleCreateSerializer.create` decrements the parent's stored stock by
exactly `N × child_unit / parent_unit`, clamped at zero
(`Product.update_parent_stock`, `core/models.py:347`–`379`), and leaves the
child's own row — hence its `stock_quantity` — untouched. -/
theorem c7_child_sale_parent_stock (st : RetailState) (saleId : ℕ) (it : RetailItemReq)
    (p parent : Product) (parentId : ℕ)
    (hp : getProduct st.products it.product_id = some p)
    (hty : p.product_type = .child)
    (hpp : p.parent_product = some parentId)
    (hpar : getProduct st.products parentId = some parent)
    (hparid : parent.id = parentId)
    (hne : it.product_id ≠ parentId)
    (_hpu : 0 < parent.unit_quantity) :
    ((getProduct (retailSellItemStep saleId st it).products parentId).map Product.stock_quantity
      = some (max (parent.stock_quantity
                    - (it.quantity : ℚ) * p.unit_quantity / parent.unit_quantity) 0))
    ∧ getProduct (retailSellItemStep saleId st it).products it.product_id = some p := by
  have hrun : (retailSellItemStep saleId st it).products
      = putProduct st.products
          { parent with stock_quantity :=
              if parent.stock_quantity
                  - (it.quantity : ℚ) * p.unit_quantity / parent.unit_quantity < 0 then 0
              else parent.stock_quantity
                  - (it.quantity : ℚ) * p.unit_quantity / parent.unit_quantity } := by
    simp only [retailSellItemStep, hp, hty, hpp, hpar, update_parent_stock]
  subst hparid
  constructor
  · rw [hrun]
    rw [getProduct_putProduct_self st.products]
    simp only [Option.map, Option.bind]
    rw [ite_neg_clamp]
  · rw [hrun]
    rw [getProduct_putProduct_ne st.products _ _ (by simpa using hne)]
    exact hp

/-- Witness for C7: the spec's scenario — selling 100 of `Rice 1kg`
(unit 1) against `Rice 50kg` (unit 50, stock 10 bags) leaves the parent at
`max (10 − 100×1/50) 0 = 8` bags and the child row untouched. -/
theorem c7_child_sale_parent_stock_witness :
    ((getProduct (retailSellItemStep 1 stRice ⟨2, 100, 0⟩).products 1).map Product.stock_quantity
      = some (max (rice50.stock_quantity - (100 : ℚ) * rice1.unit_quantity / rice50.unit_quantity) 0))
    ∧ getProduct (retailSellItemStep 1 stRice ⟨2, 100, 0⟩).products 2 = some rice1 :=
  c7_child_sale_parent_stock stRice 1 ⟨2, 100, 0⟩ rice1 rice50 1
    rfl rfl rfl rfl rfl (by decide) (by norm_num [rice50])

/-- **C8.**  The prescription gate (`core/serializers.py:1300`–`1305`) fires
on a line whose medicine requires a prescription when neither the line is
verified nor the sale flagged, before that line's batch is even resolved;
and since it fires inside `validate`, the whole request is answered from the
untouched state: no batch quantity, movement or register row changes.  (The
gate is applied per item in request order, so it is the reported error
whenever the offending line is reached, in particular when it is first.) -/
theorem c8_prescription_gate (st : PharmState) (today : ℤ) (saleId : ℕ) (invoice : String)
    (it : PharmItemReq) (rest : List PharmItemReq) (amount_paid : ℚ) (med : Medicine)
    (hmed : st.medicines it.medicine_id = some med)
    (hreq : requires_prescription med = true)
    (hver : it.prescription_verified = false) :
    pharmacyValidateItem st false it = .error .prescriptionRequired
    ∧ processPharmacySale st today saleId invoice false (it :: rest) amount_paid
        = (st, .error .prescriptionRequired) := by
  have hc : (requires_prescription med = true) ∧ ¬(it.prescription_verified = true)
      ∧ ¬((false : Bool) = true) := ⟨hreq, by simp [hver], by simp⟩
  have hitem : pharmacyValidateItem st false it = .error .prescriptionRequired := by
    simp only [pharmacyValidateItem, hmed]
    rw [if_pos hc]
  refine ⟨hitem, ?_⟩
  simp only [processPharmacySale, pharmacyValidate]
  rw [if_neg (by simp)]
  simp only [pharmacyValidateItems, hitem]

/-- A controlled-schedule line with no verification. -/
def rxItem : PharmItemReq :=
  { medicine_id := 2, batch_id := none, quantity := 1, discount_percent := 0,
    prescription_verified := false }

/-- Witness for C8: a one-line sale of the controlled `diazepam` with
`has_prescription = false` is rejected with the prescription error and the
state is returned unchanged. -/
theorem c8_prescription_gate_witness :
    pharmacyValidateItem stPharm false rxItem = .error .prescriptionRequired
    ∧ processPharmacySale stPharm todayFx 1 "INV-1" false [rxItem] 100
        = (stPharm, .error .prescriptionRequired) :=
  c8_prescription_gate stPharm todayFx 1 "INV-1" rxItem [] 100 diazepam
    rfl (by decide) rfl

/-- The `_calculated` values the source stores for a one-line sale of
`sodaSimple` (price 1.00, tax 10%) with a 0.5% discount, paid 2.00. -/
def c6Totals : SaleTotals :=
  { subtotal := 1, tax_amount := 1/10, discount_amount := 0, total := 109/100,
    change_amount := 91/100 }

/-- **C6, counterexample.**  `SaleCreateSerializer.validate` quantizes the
total computed from the unrounded sums but quantizes `subtotal`,
`discount_amount` and `tax_amount` separately
(`core/serializers.py:541`–`561`), so the stored fields can disagree: here
`1.00 − 0.00 + 0.10 = 1.10 ≠ 1.09` (raw discount 0.005 rounds to 0.00, raw
tax 0.0995 rounds to 0.10, raw total 1.0945 rounds to 1.09). -/
theorem c6_rounding_counterexample :
    retailValidate psRice [⟨5, 1, 1/2⟩] "cash" "" 2 = .ok c6Totals
    ∧ c6Totals.subtotal - c6Totals.discount_amount + c6Totals.tax_amount ≠ c6Totals.total := by
  constructor
  · norm_num [retailValidate, retailScanItems, getProduct, psRice, sodaSimple,
      quantize2, roundHalfEvenZ, c6Totals]
    intro h
    exact absurd h (by decide)
  · norm_num [c6Totals]

/-- **C6, amended.**  The stored `total` is the 2-dp quantization of the
exact `subtotal − discount (+ tax)` (so the identity holds on the raw sums,
but the individually rounded stored components may differ from it by a
cent); `amount_paid ≥ total` is enforced by both serializers, and for a
2-dp `amount_paid` the stored change is exactly `amount_paid − total`. -/
theorem c6_totals_amended :
    (∀ (ps : ProductTable) (items : List RetailItemReq) (pm cn : String)
       (paid S D T : ℚ) (c : SaleTotals) (n : ℤ),
      retailScanItems ps items = .ok (S, D, T) →
      retailValidate ps items pm cn paid = .ok c →
      paid = (n : ℚ) / 100 →
      c.total = quantize2 (S - D + T) ∧ c.total ≤ paid
        ∧ c.change_amount = paid - c.total)
    ∧ (∀ (vs : List ValidatedItem) (paid : ℚ) (c : SaleTotals) (n : ℤ),
      pharmacyComputeTotals vs paid = .ok c →
      paid = (n : ℚ) / 100 →
      c.total = quantize2 ((pharmacyRawTotals vs).1 - (pharmacyRawTotals vs).2)
        ∧ c.total ≤ paid ∧ c.change_amount = paid - c.total) := by
  have hq : ∀ (X paid : ℚ) (n : ℤ), paid = (n : ℚ)/100 →
      quantize2 (paid - quantize2 X) = paid - quantize2 X := by
    intro X paid n hn
    subst hn
    rw [show (n : ℚ)/100 - quantize2 X = ((n - roundHalfEvenZ (X * 100) : ℤ) : ℚ)/100 by
      unfold quantize2; push_cast; ring]
    rw [quantize2_div100]
  constructor
  · intro ps items pm cn paid S D T c n hscan hval hn
    unfold retailValidate at hval
    by_cases h0 : items = []
    · rw [if_pos h0] at hval; cases hval
    rw [if_neg h0] at hval
    by_cases h1 : pm = "mobile" ∧ cn.trim = ""
    · rw [if_pos h1] at hval; cases hval
    rw [if_neg h1] at hval
    simp only [hscan] at hval
    by_cases h2 : paid < quantize2 (S - D + T)
    · rw [if_pos h2] at hval; cases hval
    rw [if_neg h2] at hval
    injection hval with hc
    subst hc
    exact ⟨rfl, not_lt.mp h2, hq (S - D + T) paid n hn⟩
  · intro vs paid c n hval hn
    unfold pharmacyComputeTotals at hval
    by_cases h2 : paid
        < quantize2 ((pharmacyRawTotals vs).1 - (pharmacyRawTotals vs).2)
    · rw [if_pos h2] at hval; cases hval
    rw [if_neg h2] at hval
    injection hval with hc
    subst hc
    exact ⟨rfl, not_lt.mp h2,
      hq ((pharmacyRawTotals vs).1 - (pharmacyRawTotals vs).2) paid n hn⟩

/-- A validated pharmacy line: two units of `batchA` at 3.00. -/
def vFx : ValidatedItem :=
  { medicine := amoxicillin, batch := batchA, quantity := 2, unit_price := 3,
    discount_percent := 0, prescription_verified := false }

/-- The totals for the `vFx` sale paid with 10.00. -/
def c6PharmTotals : SaleTotals :=
  { subtotal := 6, tax_amount := 0, discount_amount := 0, total := 6, change_amount := 4 }

/-- Witness for C6 (amended): the retail soda sale (total 1.09, change 0.91
on 2.00 paid) and a pharmacy sale of two 3.00 units (total 6, change 4 on
10.00 paid). -/
theorem c6_totals_witness :
    (c6Totals.total = quantize2 ((1 : ℚ) - 1/200 + 199/2000) ∧ c6Totals.total ≤ 2
      ∧ c6Totals.change_amount = 2 - c6Totals.total)
    ∧ (c6PharmTotals.total
        = quantize2 ((pharmacyRawTotals [vFx]).1 - (pharmacyRawTotals [vFx]).2)
      ∧ c6PharmTotals.total ≤ 10
      ∧ c6PharmTotals.change_amount = 10 - c6PharmTotals.total) :=
  ⟨c6_totals_amended.1 psRice [⟨5, 1, 1/2⟩] "cash" "" 2 1 (1/200) (199/2000) c6Totals 200
      (by norm_num [retailScanItems, getProduct, psRice, sodaSimple])
      (by norm_num [retailValidate, retailScanItems, getProduct, psRice, sodaSimple,
          quantize2, roundHalfEvenZ, c6Totals]
          intro h
          exact absurd h (by decide))
      (by norm_num),
   c6_totals_amended.2 [vFx] 10 c6PharmTotals 1000
      (by norm_num [pharmacyComputeTotals, pharmacyRawTotals, vFx, quantize2,
          roundHalfEvenZ, c6PharmTotals])
      (by norm_num)⟩

/-- The parent-row movement written when one `rice10` child (10 kg of a
50 kg parent) is sold: consumption 0.2 is truncated to quantity 0, and the
Decimal stocks 10.0/9.8 are truncated to 10/9. -/
def c1MovParent : StockMovement :=
  { productId := 1, movement_type := "sale", quantity := 0, previous_quantity := 10,
    new_quantity := 9, saleId := some 1, notes := "" }

/-- The informational child-row movement of the same sale. -/
def c1MovChild : StockMovement :=
  { productId := 3, movement_type := "sale", quantity := -1, previous_quantity := 50,
    new_quantity := 49, saleId := some 1, notes := "" }

/-- **C1, counterexample.**  Selling one `rice10` child via
`SaleCreateSerializer.create` (`core/serializers.py:605`–`632`) writes a
parent movement with `quantity = -int(0.2) = 0`, `previous = 10`, `new = 9`:
`9 ≠ 10 + 0`.  The child movement keeps `new = prev + qty` (49 = 50 − 1) but
its subject's stored counter stays `0 ≠ 49`. -/
theorem c1_ledger_counterexample :
    (retailSellItemStep 1 stRice ⟨3, 1, 0⟩).movements = [c1MovParent, c1MovChild]
    ∧ c1MovParent.new_quantity ≠ c1MovParent.previous_quantity + c1MovParent.quantity
    ∧ (getProduct (retailSellItemStep 1 stRice ⟨3, 1, 0⟩).products 3).map Product.stock_quantity
        = some 0
    ∧ c1MovChild.new_quantity ≠ 0 := by
  refine ⟨?_, by decide, ?_, by decide⟩
  · norm_num [retailSellItemStep, getProduct, psRice, stRice, rice10, rice50,
      update_parent_stock, putProduct, available_child_stock, pyInt, c1MovParent, c1MovChild]
  · norm_num [retailSellItemStep, getProduct, psRice, stRice, rice10, rice50,
      update_parent_stock, putProduct, available_child_stock, pyInt]

lemma pyInt_sub_intCast (k q : ℤ) : pyInt ((k : ℚ) - (q : ℚ)) = k - q := by
  rw [show (k : ℚ) - (q : ℚ) = ((k - q : ℤ) : ℚ) by push_cast; ring, pyInt_intCast]

lemma pyInt_add_intCast (k q : ℤ) : pyInt ((k : ℚ) + (q : ℚ)) = k + q := by
  rw [show (k : ℚ) + (q : ℚ) = ((k + q : ℤ) : ℚ) by push_cast; ring, pyInt_intCast]

/-- **C1, amended.**  `new_quantity = previous_quantity + quantity` holds,
with the subject's stored counter equal to `new_quantity`, for every
pharmacy movement (sale, void `return`, expiry write-off) and — whenever
the product's Decimal stock is integral — for retail manual adjustments and
direct simple/parent sales.  It fails for child-product retail sales (see
the counterexample): the parent row truncates the fractional consumption
and the child row's `new_quantity` is derived availability while the
child's stored stock stays 0. -/
theorem c1_ledger_invariant_amended :
    (∀ (today : ℤ) (sale : PharmacySaleRec) (st : PharmState) (v : ValidatedItem),
      ∃ m : MedicineStockMovement,
        (pharmacySellItemStep today sale st v).movements = st.movements ++ [m]
        ∧ m.new_quantity = m.previous_quantity + m.quantity
        ∧ ((pharmacySellItemStep today sale st v).batches v.batch.id).map Batch.quantity
            = some m.new_quantity)
    ∧ (∀ (today : ℤ) (reason : String) (sale : PharmacySaleRec) (st : PharmState)
         (it : PharmacySaleItemRec) (b : Batch), st.batches it.batchId = some b →
      ∃ m : MedicineStockMovement,
        (voidSaleItemStep today reason sale st it).movements = st.movements ++ [m]
        ∧ m.new_quantity = m.previous_quantity + m.quantity
        ∧ ((voidSaleItemStep today reason sale st it).batches b.id).map Batch.quantity
            = some m.new_quantity)
    ∧ (∀ (st : PharmState) (today : ℤ) (bid : ℕ) (reason : String)
         (st' : PharmState) (b' : Batch),
        writeoff_expired_batch st today bid reason = .ok (st', b') →
      ∃ m : MedicineStockMovement,
        st'.movements = st.movements ++ [m]
        ∧ m.new_quantity = m.previous_quantity + m.quantity
        ∧ (st'.batches b'.id).map Batch.quantity = some m.new_quantity)
    ∧ (∀ (st : RetailState) (pid : ℕ) (ty : AdjustType) (q : ℤ) (st' : RetailState)
         (p : Product) (k : ℤ),
        getProduct st.products pid = some p → p.id = pid →
        p.stock_quantity = (k : ℚ) →
        stockAdjust st pid ty q = .ok st' →
      ∃ m : StockMovement,
        st'.movements = st.movements ++ [m]
        ∧ m.new_quantity = m.previous_quantity + m.quantity
        ∧ (getProduct st'.products pid).map Product.stock_quantity
            = some ((m.new_quantity : ℚ)))
    ∧ (∀ (saleId : ℕ) (st : RetailState) (it : RetailItemReq) (p : Product) (k : ℤ),
        getProduct st.products it.product_id = some p → p.id = it.product_id →
        (p.product_type = .simple ∨ p.product_type = .parent) →
        p.stock_quantity = (k : ℚ) →
      ∃ m : StockMovement,
        (retailSellItemStep saleId st it).movements = st.movements ++ [m]
        ∧ m.new_quantity = m.previous_quantity + m.quantity
        ∧ (getProduct (retailSellItemStep saleId st it).products it.product_id).map
            Product.stock_quantity = some ((m.new_quantity : ℚ))) := by
  refine ⟨?_, ?_, ?_, ?_, ?_⟩
  · -- pharmacy sale step
    intro today sale st v
    refine ⟨{ medicineId := v.medicine.id, batchId := v.batch.id, movement_type := "sale",
              quantity := -v.quantity, previous_quantity := v.batch.quantity,
              new_quantity :=
                (batchSave today { v.batch with quantity := v.batch.quantity - v.quantity }).quantity,
              reference_number := sale.invoice_number, saleId := some sale.id,
              reason := "" }, ?_, ?_, ?_⟩
    · by_cases hc : is_controlled_drug v.medicine <;>
        simp [pharmacySellItemStep, hc]
    · rw [batchSave_quantity]
      ring
    · have hid : (batchSave today
          { v.batch with quantity := v.batch.quantity - v.quantity }).id = v.batch.id := by
        rw [batchSave_id]
      by_cases hc : is_controlled_drug v.medicine <;>
        simp [pharmacySellItemStep, hc, putBatch, hid]
  · -- pharmacy void step
    intro today reason sale st it b hb
    refine ⟨{ medicineId := it.medicineId, batchId := b.id, movement_type := "return",
              quantity := it.quantity, previous_quantity := b.quantity,
              new_quantity :=
                (batchSave today { b with quantity := b.quantity + it.quantity }).quantity,
              reference_number := "VOID-" ++ sale.invoice_number,
              saleId := some sale.id,
              reason := "Sale voided: " ++ reason }, ?_, ?_, ?_⟩
    · rcases hmed : st.medicines it.medicineId with _ | med
      · simp [voidSaleItemStep, hb, hmed]
      · by_cases hc : is_controlled_drug med <;>
          simp [voidSaleItemStep, hb, hmed, hc]
    · rw [batchSave_quantity]
    · have hid : (batchSave today
          { b with quantity := b.quantity + it.quantity }).id = b.id := by
        rw [batchSave_id]
      rcases hmed : st.medicines it.medicineId with _ | med
      · simp [voidSaleItemStep, hb, hmed, putBatch, hid]
      · by_cases hc : is_controlled_drug med <;>
          simp [voidSaleItemStep, hb, hmed, hc, putBatch, hid]
  · -- write-off
    intro st today bid reason st' b' hrun
    unfold writeoff_expired_batch at hrun
    rcases hb : st.batches bid with _ | batch
    · rw [hb] at hrun; cases hrun
    simp only [hb] at hrun
    by_cases hexp : is_expired today batch = true
    · rw [if_neg (by simp [hexp])] at hrun
      by_cases hz : batch.quantity = 0
      · rw [if_pos hz] at hrun; cases hrun
      rw [if_neg hz] at hrun
      injection hrun with hpair
      injection hpair with hst hbatch
      subst hst; subst hbatch
      refine ⟨{ medicineId := batch.medicineId, batchId := batch.id,
                movement_type := "expiry_writeoff", quantity := -batch.quantity,
                previous_quantity := batch.quantity, new_quantity := 0,
                reference_number := "", saleId := none, reason := reason }, rfl, by ring, ?_⟩
      have hid : (batchSave today { batch with quantity := 0 }).id = batch.id := by
        rw [batchSave_id]
      have hq0 : (batchSave today { batch with quantity := 0 }).quantity = 0 := by
        rw [batchSave_quantity]
      simp [putBatch, hid, hq0]
    · rw [if_pos (by simpa using hexp)] at hrun; cases hrun
  · -- manual adjustment, integral stock
    intro st pid ty q st' p k hp hpid hint hrun
    unfold stockAdjust at hrun
    simp only [hp] at hrun
    by_cases hrem : ty = .remove ∧ p.stock_quantity < (q : ℚ)
    · rw [if_pos hrem] at hrun; cases hrun
    rw [if_neg hrem] at hrun
    injection hrun with hst
    subst hst
    cases ty
    · -- add
      refine ⟨{ productId := p.id, movement_type := "adjustment",
                quantity := pyInt (q : ℚ),
                previous_quantity := pyInt p.stock_quantity,
                new_quantity := pyInt (p.stock_quantity + (q : ℚ)),
                saleId := none, notes := "" }, rfl, ?_, ?_⟩
      · rw [hint, pyInt_add_intCast, pyInt_intCast, pyInt_intCast]
      · rw [show pid = ({ p with stock_quantity := p.stock_quantity + (q : ℚ) } : Product).id
          from hpid.symm]
        rw [getProduct_putProduct_self]
        simp [hint, pyInt_add_intCast]
    · -- remove
      refine ⟨{ productId := p.id, movement_type := "adjustment",
                quantity := pyInt (-(q : ℚ)),
                previous_quantity := pyInt p.stock_quantity,
                new_quantity := pyInt (p.stock_quantity - (q : ℚ)),
                saleId := none, notes := "" }, rfl, ?_, ?_⟩
      · rw [hint, pyInt_sub_intCast, pyInt_intCast]
        rw [show -(q : ℚ) = ((-q : ℤ) : ℚ) by push_cast; ring, pyInt_intCast]
        ring
      · rw [show pid = ({ p with stock_quantity := p.stock_quantity - (q : ℚ) } : Product).id
          from hpid.symm]
        rw [getProduct_putProduct_self]
        simp [hint, pyInt_sub_intCast]
    · -- set
      refine ⟨{ productId := p.id, movement_type := "adjustment",
                quantity := pyInt ((q : ℚ) - p.stock_quantity),
                previous_quantity := pyInt p.stock_quantity,
                new_quantity := pyInt ((q : ℚ)),
                saleId := none, notes := "" }, rfl, ?_, ?_⟩
      · rw [hint, pyInt_sub_intCast, pyInt_intCast, pyInt_intCast]
        ring
      · rw [show pid = ({ p with stock_quantity := (q : ℚ) } : Product).id
          from hpid.symm]
        rw [getProduct_putProduct_self]
        simp [show (q : ℚ) = ((q : ℤ) : ℚ) from rfl, pyInt_intCast]
  · -- direct simple/parent retail sale, integral stock
    intro saleId st it p k hp hpid hty hint
    have hnew : (k : ℚ) - (it.quantity : ℚ) = ((k - it.quantity : ℤ) : ℚ) := by
      push_cast; ring
    rcases hty with hty | hty
    · refine ⟨{ productId := p.id, movement_type := "sale",
                quantity := -it.quantity,
                previous_quantity := pyInt p.stock_quantity,
                new_quantity := pyInt (p.stock_quantity - (it.quantity : ℚ)),
                saleId := some saleId, notes := "" }, ?_, ?_, ?_⟩
      · simp [retailSellItemStep, hp, hty]
      · rw [hint, pyInt_sub_intCast, pyInt_intCast]
        ring
      · rw [show (retailSellItemStep saleId st it).products
            = putProduct st.products
                { p with stock_quantity := p.stock_quantity - (it.quantity : ℚ) } by
          simp [retailSellItemStep, hp, hty]]
        rw [show it.product_id
            = ({ p with stock_quantity := p.stock_quantity - (it.quantity : ℚ) } : Product).id
          from hpid.symm]
        rw [getProduct_putProduct_self]
        simp [hint, pyInt_sub_intCast]
    · refine ⟨{ productId := p.id, movement_type := "sale",
                quantity := -it.quantity,
                previous_quantity := pyInt p.stock_quantity,
                new_quantity := pyInt (p.stock_quantity - (it.quantity : ℚ)),
                saleId := some saleId, notes := "" }, ?_, ?_, ?_⟩
      · simp [retailSellItemStep, hp, hty]
      · rw [hint, pyInt_sub_intCast, pyInt_intCast]
        ring
      · rw [show (retailSellItemStep saleId st it).products
            = putProduct st.products
                { p with stock_quantity := p.stock_quantity - (it.quantity : ℚ) } by
          simp [retailSellItemStep, hp, hty]]
        rw [show it.product_id
            = ({ p with stock_quantity := p.stock_quantity - (it.quantity : ℚ) } : Product).id
          from hpid.symm]
        rw [getProduct_putProduct_self]
        simp [hint, pyInt_sub_intCast]

/-- A completed pharmacy sale header over `batchA`. -/
def pharmSaleFx : PharmacySaleRec :=
  { id := 5, invoice_number := "INV-5", status := "completed", void_reason := "",
    items := [⟨1, 10, 2⟩] }

/-- The write-off movement for `batchOld` (10 units to zero). -/
def woMovFx : MedicineStockMovement :=
  { medicineId := 1, batchId := 12, movement_type := "expiry_writeoff", quantity := -10,
    previous_quantity := 10, new_quantity := 0, reference_number := "", saleId := none,
    reason := "expired stock" }

/-- `batchOld` after the write-off. -/
def woBatchFx : Batch :=
  { id := 12, medicineId := 1, batch_number := "OLD", expiry_date := -5, quantity := 0,
    selling_price := 3, is_blocked := true, block_reason := "damaged" }

/-- The pharmacy state after writing off `batchOld`. -/
def stWoFx : PharmState :=
  { medicines := stPharm.medicines, batches := putBatch stPharm.batches woBatchFx,
    movements := [woMovFx], register := [] }

/-- The retail state after adding 7 units to `sodaSimple`. -/
def stAdjFx : RetailState :=
  { products := putProduct psRice { sodaSimple with stock_quantity := 107 },
    movements := [{ productId := 5, movement_type := "adjustment", quantity := 7,
                    previous_quantity := 100, new_quantity := 107, saleId := none,
                    notes := "" }] }

/-- Witness for C1 (amended): one pharmacy sale line, one void line, the
write-off of `batchOld`, an `add 7` adjustment on `sodaSimple`, and a direct
simple-product sale, each carrying a balanced movement. -/
theorem c1_ledger_invariant_witness :
    (∃ m : MedicineStockMovement,
      (pharmacySellItemStep todayFx pharmSaleFx stPharm vFx).movements
          = stPharm.movements ++ [m]
      ∧ m.new_quantity = m.previous_quantity + m.quantity
      ∧ ((pharmacySellItemStep todayFx pharmSaleFx stPharm vFx).batches vFx.batch.id).map
          Batch.quantity = some m.new_quantity)
    ∧ (∃ m : MedicineStockMovement,
      (voidSaleItemStep todayFx "wrong item" pharmSaleFx stPharm ⟨1, 10, 2⟩).movements
          = stPharm.movements ++ [m]
      ∧ m.new_quantity = m.previous_quantity + m.quantity
      ∧ ((voidSaleItemStep todayFx "wrong item" pharmSaleFx stPharm ⟨1, 10, 2⟩).batches
          batchA.id).map Batch.quantity = some m.new_quantity)
    ∧ (∃ m : MedicineStockMovement,
      stWoFx.movements = stPharm.movements ++ [m]
      ∧ m.new_quantity = m.previous_quantity + m.quantity
      ∧ (stWoFx.batches woBatchFx.id).map Batch.quantity = some m.new_quantity)
    ∧ (∃ m : StockMovement,
      stAdjFx.movements = stRice.movements ++ [m]
      ∧ m.new_quantity = m.previous_quantity + m.quantity
      ∧ (getProduct stAdjFx.products 5).map Product.stock_quantity
          = some ((m.new_quantity : ℚ)))
    ∧ (∃ m : StockMovement,
      (retailSellItemStep 2 stRice ⟨5, 7, 0⟩).movements = stRice.movements ++ [m]
      ∧ m.new_quantity = m.previous_quantity + m.quantity
      ∧ (getProduct (retailSellItemStep 2 stRice ⟨5, 7, 0⟩).products 5).map
          Product.stock_quantity = some ((m.new_quantity : ℚ))) :=
  ⟨c1_ledger_invariant_amended.1 todayFx pharmSaleFx stPharm vFx,
   c1_ledger_invariant_amended.2.1 todayFx "wrong item" pharmSaleFx stPharm ⟨1, 10, 2⟩
     batchA rfl,
   c1_ledger_invariant_amended.2.2.1 stPharm todayFx 12 "expired stock" stWoFx woBatchFx
     (by norm_num [writeoff_expired_batch, stPharm, batchOld, is_expired, batchSave,
        stWoFx, woBatchFx, woMovFx, putBatch, todayFx]),
   c1_ledger_invariant_amended.2.2.2.1 stRice 5 .add 7 stAdjFx sodaSimple 100
     rfl rfl (by norm_num [sodaSimple])
     (by norm_num [stockAdjust, getProduct, psRice, stRice, sodaSimple, putProduct,
        pyInt, stAdjFx]),
   c1_ledger_invariant_amended.2.2.2.2 2 stRice ⟨5, 7, 0⟩ sodaSimple 100
     rfl rfl (Or.inl rfl) (by norm_num [sodaSimple])⟩

/-- A completed retail sale of two `rice10` child units. -/
def c2Sale : RetailSaleRec := { id := 7, status := "completed", items := [⟨3, 2⟩] }

/-- **C2, counterexample.**  Cancelling a completed retail sale of a child
product (`cancel_sale_view`, `core/views.py:966`–`975`) adds the quantity to
the **child's own** `stock_quantity` (0 → 2) while the parent — the stock
source the sale actually consumed — stays at 10, and writes no ledger
movement of any kind (and takes no reason). -/
theorem c2_void_restore_counterexample :
    cancel_sale_view stRice c2Sale
      = .ok ({ products := putProduct psRice { rice10 with stock_quantity := 2 },
               movements := [] },
             { c2Sale with status := "cancelled" })
    ∧ getProduct (putProduct psRice { rice10 with stock_quantity := 2 }) 1 = some rice50
    ∧ (getProduct (putProduct psRice { rice10 with stock_quantity := 2 }) 3).map
        Product.stock_quantity = some 2 := by
  refine ⟨?_, ?_, ?_⟩
  · norm_num [cancel_sale_view, cancelRestoreStep, getProduct, putProduct, psRice,
      stRice, rice10, c2Sale]
    intro h
    exact absurd h (by decide)
  · norm_num [getProduct, putProduct, psRice, rice10]
  · norm_num [getProduct, putProduct, psRice, rice10]

/-- **C2, amended.**  Voiding a completed pharmacy sale restores every
line's quantity to its batch and writes one `return` movement per line
referencing the sale (`VOID-<invoice>`) and the void reason, flips the sale
to `voided`, and a second void attempt is rejected with the state untouched.
Cancelling a retail sale, however, credits each line's quantity to the
line's own product row (for a child product: the child, not the parent),
writes no reversing movement and records no reason; only the
second-cancel rejection behaves as claimed. -/
theorem c2_void_restore_amended :
    (∀ (today : ℤ) (reason : String) (sale : PharmacySaleRec) (st : PharmState)
       (it : PharmacySaleItemRec) (b : Batch), st.batches it.batchId = some b →
      ((voidSaleItemStep today reason sale st it).batches b.id).map Batch.quantity
          = some (b.quantity + it.quantity)
      ∧ ∃ m : MedicineStockMovement,
          (voidSaleItemStep today reason sale st it).movements = st.movements ++ [m]
          ∧ m.movement_type = "return"
          ∧ m.reference_number = "VOID-" ++ sale.invoice_number
          ∧ m.reason = "Sale voided: " ++ reason
          ∧ m.saleId = some sale.id
          ∧ m.quantity = it.quantity)
    ∧ (∀ (st : PharmState) (today : ℤ) (sale : PharmacySaleRec) (reason : String),
        (sale.status ≠ "voided" → reason ≠ "" →
          ∃ st1, void_pharmacy_sale st today sale reason
            = .ok (st1, { sale with status := "voided", void_reason := reason }))
        ∧ (sale.status = "voided" →
            void_pharmacy_sale st today sale reason = .error .alreadyVoided))
    ∧ (∀ (ps : ProductTable) (movs : List StockMovement) (sale : RetailSaleRec)
         (it : RetailSaleItemRec) (p : Product),
        sale.status ≠ "cancelled" → sale.items = [it] →
        getProduct ps it.productId = some p →
        cancel_sale_view ⟨ps, movs⟩ sale
          = .ok (⟨putProduct ps
                    { p with stock_quantity := p.stock_quantity + (it.quantity : ℚ) },
                  movs⟩,
                 { sale with status := "cancelled" }))
    ∧ (∀ (st : RetailState) (sale : RetailSaleRec), sale.status = "cancelled" →
        cancel_sale_view st sale = .error .alreadyCancelled) := by
  refine ⟨?_, ?_, ?_, ?_⟩
  · intro today reason sale st it b hb
    have hid : (batchSave today { b with quantity := b.quantity + it.quantity }).id
        = b.id := by rw [batchSave_id]
    have hq : (batchSave today { b with quantity := b.quantity + it.quantity }).quantity
        = b.quantity + it.quantity := by rw [batchSave_quantity]
    constructor
    · rcases hmed : st.medicines it.medicineId with _ | med
      · simp [voidSaleItemStep, hb, hmed, putBatch, hid, hq]
      · by_cases hc : is_controlled_drug med <;>
          simp [voidSaleItemStep, hb, hmed, hc, putBatch, hid, hq]
    · refine ⟨{ medicineId := it.medicineId, batchId := b.id, movement_type := "return",
                quantity := it.quantity, previous_quantity := b.quantity,
                new_quantity :=
                  (batchSave today { b with quantity := b.quantity + it.quantity }).quantity,
                reference_number := "VOID-" ++ sale.invoice_number,
                saleId := some sale.id,
                reason := "Sale voided: " ++ reason }, ?_, rfl, rfl, rfl, rfl, rfl⟩
      rcases hmed : st.medicines it.medicineId with _ | med
      · simp [voidSaleItemStep, hb, hmed]
      · by_cases hc : is_controlled_drug med <;>
          simp [voidSaleItemStep, hb, hmed, hc]
  · intro st today sale reason
    constructor
    · intro hs hr
      refine ⟨sale.items.foldl (voidSaleItemStep today reason sale) st, ?_⟩
      unfold void_pharmacy_sale
      rw [if_neg hs, if_neg hr]
    · intro hs
      unfold void_pharmacy_sale
      rw [if_pos hs]
  · intro ps movs sale it p hs hitems hp
    unfold cancel_sale_view
    rw [if_neg hs, hitems]
    simp [cancelRestoreStep, hp]
  · intro st sale hs
    unfold cancel_sale_view
    rw [if_pos hs]

/-- An already-voided pharmacy sale. -/
def pharmSaleVoided : PharmacySaleRec := { pharmSaleFx with status := "voided" }

/-- Witness for C2 (amended): voiding the `pharmSaleFx` line restores
`batchA` from 5 to 7 with a referenced `return` movement, the whole void
flips the status, a second void is rejected, the retail cancel credits the
child row, and a second cancel is rejected. -/
theorem c2_void_restore_witness :
    (((voidSaleItemStep todayFx "wrong item" pharmSaleFx stPharm ⟨1, 10, 2⟩).batches
        batchA.id).map Batch.quantity = some (batchA.quantity + 2)
      ∧ ∃ m : MedicineStockMovement,
          (voidSaleItemStep todayFx "wrong item" pharmSaleFx stPharm ⟨1, 10, 2⟩).movements
            = stPharm.movements ++ [m]
          ∧ m.movement_type = "return"
          ∧ m.reference_number = "VOID-" ++ pharmSaleFx.invoice_number
          ∧ m.reason = "Sale voided: " ++ "wrong item"
          ∧ m.saleId = some pharmSaleFx.id
          ∧ m.quantity = 2)
    ∧ (∃ st1, void_pharmacy_sale stPharm todayFx pharmSaleFx "wrong item"
        = .ok (st1, { pharmSaleFx with status := "voided", void_reason := "wrong item" }))
    ∧ void_pharmacy_sale stPharm todayFx pharmSaleVoided "x" = .error .alreadyVoided
    ∧ cancel_sale_view ⟨psRice, []⟩ c2Sale
        = .ok (⟨putProduct psRice
                  { rice10 with stock_quantity := rice10.stock_quantity + ((2 : ℤ) : ℚ) },
                []⟩,
               { c2Sale with status := "cancelled" })
    ∧ cancel_sale_view stRice { c2Sale with status := "cancelled" }
        = .error .alreadyCancelled :=
  ⟨c2_void_restore_amended.1 todayFx "wrong item" pharmSaleFx stPharm ⟨1, 10, 2⟩ batchA rfl,
   (c2_void_restore_amended.2.1 stPharm todayFx pharmSaleFx "wrong item").1
     (by decide) (by decide),
   (c2_void_restore_amended.2.1 stPharm todayFx pharmSaleVoided "x").2 rfl,
   c2_void_restore_amended.2.2.1 psRice [] c2Sale ⟨3, 2⟩ rice10 (by decide) rfl rfl,
   c2_void_restore_amended.2.2.2 stRice { c2Sale with status := "cancelled" } rfl⟩
